import Mathlib

/-!
Shallow embedding of `src/src/lib.rs` of the `vector` crate: a
compile-time length-checked vector. Type-level naturals (`typenum`
unsigned types) are embedded as `Nat`; the phantom length parameter `L`
of `Vector<T, L>` becomes a `Nat` parameter of the Lean structure; the
backing `Vec<T>` becomes a `List`; a Rust runtime panic is modelled as
`none`.
-/

namespace vector

/-- `Vector<T, L>` (src/src/lib.rs, lines 55-59): a wrapper around a
runtime `Vec<T>` (field `inner`) with a phantom type-level length `L`.
The struct itself enforces no relation between `inner` and `L`. -/
structure Vector (T : Type) (L : Nat) where
  inner : List T

/-- The `typenum` compile-time comparison used by the `Index` and
`IndexMut` impls (lines 111 and 124): the bound
`I: IsLess<L, Output = True>` demands that comparing the type-level
naturals `I` and `L` yields the type-level `True`, i.e. that
`isLess I L = true`. `typenum`'s `IsLess` agrees with ordinary `<` on
the represented values. -/
def isLess (I L : Nat) : Bool := decide (I < L)

/-- `Vector::len` (lines 62-68): returns `L::to_usize()`; the receiver's
backing store is never touched. -/
def Vector.len {T : Type} {L : Nat} (_ : Vector T L) : Nat := L

/-- `impl From<Vec<T>> for Vector<T, L>` (lines 80-87): wraps the given
vec unchanged as the backing store; no size check of any kind. -/
def Vector.fromVec {T : Type} (L : Nat) (orig : List T) : Vector T L :=
  { inner := orig }

/-- Free function `from_elem::<L, T>` (lines 89-95): backing store is
`vec![elem; L::USIZE]`, i.e. `L` independent copies of `elem`. -/
def from_elem {T : Type} (L : Nat) (elem : T) : Vector T L :=
  { inner := List.replicate L elem }

/-- Method `Vector::from_elem` (lines 70-78): delegates to the free
function `from_elem::<L, T>`. -/
def Vector.from_elem {T : Type} (L : Nat) (elem : T) : Vector T L :=
  vector.from_elem L elem

/-- `impl Index<I> for Vector<T, L>` (lines 107-118): callable only under
the compile-time constraint `isLess I L = true`; the body evaluates
`&self.inner[I::to_usize()]`, and `Vec`'s own indexing panics (modelled
as `none`) when position `I` is outside the backing store. -/
def Vector.index {T : Type} {L : Nat} (v : Vector T L) (I : Nat)
    (_h : isLess I L = true) : Option T :=
  v.inner[I]?

/-- Writing a value through `impl IndexMut<I> for Vector<T, L>` (lines
120-129): callable only under `isLess I L = true`; the body takes
`&mut self.inner[I::to_usize()]`, which panics (modelled as `none`) when
position `I` is outside the backing store, and otherwise the store is
updated in place at position `I`. -/
def Vector.writeIndexMut {T : Type} {L : Nat} (v : Vector T L) (I : Nat)
    (_h : isLess I L = true) (x : T) : Option (Vector T L) :=
  if I < v.inner.length then some { inner := v.inner.set I x } else none

/-- The `count_expressions!` recursion (lines 133-139): a single
expression counts as `U1`; each additional expression contributes one
successor (`Add1`) to the count of the remainder. The zero-expression
form matches no rule of the Rust recursion (it fails to compile there);
it is mapped to `0` here for totality only. -/
def count_expressions {T : Type} : List T → Nat
  | [] => 0
  | [_] => 1
  | _ :: x :: xs => count_expressions (x :: xs) + 1

/-- The `vector!` literal construction helper (lines 142-148): builds
`Vector::<_, count_expressions![..]>::from(vec![..])`, i.e. counts the
expressions to derive the length type and wraps the literal list through
the ordinary `From<Vec<T>>` constructor. -/
def vectorOf {T : Type} (xs : List T) : Vector T (count_expressions xs) :=
  Vector.fromVec (count_expressions xs) xs

/-- The counting recursion computes exactly the number of supplied
expressions. -/
theorem count_expressions_eq_length {T : Type} (xs : List T) :
    count_expressions xs = xs.length := by
  induction xs with
  | nil => rfl
  | cons x xs ih =>
    cases xs with
    | nil => rfl
    | cons y ys =>
      simp only [count_expressions, List.length_cons, ih]

/-- C1 (counterexample): the claim fails as stated. The `From<Vec<T>>`
path admits a container of declared length 3 over a backing store of
size 1; indexing it with token 2 and the compile-time proof `2 < 3` hits
the backing `Vec`'s own bounds check and panics (modelled as `none`)
instead of returning the element at position 2. -/
theorem C1_counterexample :
    (Vector.fromVec 3 [10] : Vector Nat 3).index 2 (by decide) = none := by
  decide

/-- C1 (amended): for every container that satisfies the size invariant
`inner.length = runtime_value(L)` and every index token `I` with the
compile-time proof `isLess I L = true`, the indexing operation returns
the element at runtime position `I` of the backing store and cannot fail
at runtime. -/
theorem C1_index_total_under_invariant {T : Type} {L : Nat}
    (v : Vector T L) (hinv : v.inner.length = L) (I : Nat)
    (h : isLess I L = true) (d : T) :
    v.index I h = some (v.inner.getD I d) := by
  have hIL : I < L := of_decide_eq_true h
  have hlen : I < v.inner.length := by rw [hinv]; exact hIL
  simp [Vector.index, List.getD_eq_getElem?_getD,
    List.getElem?_eq_getElem hlen]

/-- C1 witness at a concrete invariant-satisfying container. -/
theorem C1_witness :
    (Vector.fromVec 3 [10, 20, 30] : Vector Nat 3).index 1 (by decide)
      = some ((Vector.fromVec 3 [10, 20, 30] : Vector Nat 3).inner.getD 1 0) :=
  C1_index_total_under_invariant (Vector.fromVec 3 [10, 20, 30])
    (by decide) 1 (by decide) 0

/-- C2 (counterexample): the claim fails as stated. The `From<Vec<T>>`
construction path at declared length 3 accepts a vec of size 2 without
any check, producing a container whose backing-store size is not
`runtime_value(L)`. -/
theorem C2_counterexample :
    ¬ ((Vector.fromVec 3 [1, 2] : Vector Nat 3).inner.length = 3) := by
  decide

/-- C2 (amended): the size invariant `inner.length = runtime_value(L)`
holds from construction for the repeated-element path and for the
literal construction helper; it holds for the `From<Vec<T>>` path
exactly when the supplied sequence's size equals `runtime_value(L)`; and
the only mutation operation, writing through `IndexMut`, succeeds on
every invariant-satisfying container and preserves the invariant. -/
theorem C2_invariant_amended {T : Type} (L : Nat) (e : T) (s : List T)
    (hs : s.length = L) (xs : List T) (v : Vector T L)
    (hv : v.inner.length = L) (I : Nat) (h : isLess I L = true) (x : T) :
    (from_elem L e).inner.length = L ∧
    (Vector.fromVec L s : Vector T L).inner.length = L ∧
    (vectorOf xs).inner.length = count_expressions xs ∧
    ∃ w, v.writeIndexMut I h x = some w ∧ w.inner.length = L := by
  have hIL : I < L := of_decide_eq_true h
  have hlen : I < v.inner.length := by rw [hv]; exact hIL
  refine ⟨by simp [from_elem], hs, ?_, ?_⟩
  · simp [vectorOf, Vector.fromVec, count_expressions_eq_length]
  · refine ⟨{ inner := v.inner.set I x }, ?_, ?_⟩
    · simp [Vector.writeIndexMut, hlen]
    · simp [hv]

/-- C2 witness at concrete inputs for all four construction and
mutation paths. -/
theorem C2_witness :
    (from_elem 2 (7 : Nat)).inner.length = 2 ∧
    (Vector.fromVec 2 [1, 2] : Vector Nat 2).inner.length = 2 ∧
    (vectorOf [(9 : Nat)]).inner.length = count_expressions [(9 : Nat)] ∧
    ∃ w, (Vector.fromVec 2 [3, 4] : Vector Nat 2).writeIndexMut 0
        (by decide) 5 = some w ∧ w.inner.length = 2 :=
  C2_invariant_amended 2 7 [1, 2] (by decide) [9]
    (Vector.fromVec 2 [3, 4]) (by decide) 0 (by decide) 5

/-- C3: for every literal list of at least one expression, the counting
recursion derives exactly the number `N` of supplied expressions, the
constructed container reports `len() = N`, and indexing with any token
`K` carrying the compile-time proof `K < N` yields the K-th supplied
expression's value, in order. -/
theorem C3_literal_construction {T : Type} (xs : List T) (hne : xs ≠ [])
    (K : Nat) (h : isLess K (count_expressions xs) = true) (d : T) :
    count_expressions xs = xs.length ∧
    (vectorOf xs).len = xs.length ∧
    (vectorOf xs).index K h = some (xs.getD K d) := by
  have hcount := count_expressions_eq_length xs
  have hK : K < xs.length := hcount ▸ of_decide_eq_true h
  refine ⟨hcount, hcount, ?_⟩
  simp [vectorOf, Vector.fromVec, Vector.index,
    List.getD_eq_getElem?_getD, List.getElem?_eq_getElem hK]

/-- C3 witness at the literal list `[1, 3, 4]` with token 1. -/
theorem C3_witness :
    count_expressions [1, 3, 4] = ([1, 3, 4] : List Nat).length ∧
    (vectorOf [1, 3, 4]).len = ([1, 3, 4] : List Nat).length ∧
    (vectorOf [1, 3, 4]).index 1 (by decide)
      = some (([1, 3, 4] : List Nat).getD 1 0) :=
  C3_literal_construction [1, 3, 4] (by decide) 1 (by decide) 0

/-- C4: repeated-element construction at length type `L` with element `e`
builds a backing store of exactly `runtime_value(L)` copies of `e`, so
the size invariant holds by construction, `len()` reports
`runtime_value(L)`, and every index token `I` with the compile-time
proof `I < L` yields the value `e`. -/
theorem C4_from_elem_correct {T : Type} (L : Nat) (e : T) (I : Nat)
    (h : isLess I L = true) :
    (from_elem L e : Vector T L).inner = List.replicate L e ∧
    (from_elem L e : Vector T L).inner.length = L ∧
    (from_elem L e : Vector T L).len = L ∧
    (from_elem L e : Vector T L).index I h = some e := by
  have hIL : I < L := of_decide_eq_true h
  refine ⟨rfl, by simp [from_elem], rfl, ?_⟩
  simp [from_elem, Vector.index, List.getElem?_replicate, hIL]

/-- C4 witness at length 3, element 1, token 2. -/
theorem C4_witness :
    (from_elem 3 (1 : Nat) : Vector Nat 3).inner = List.replicate 3 1 ∧
    (from_elem 3 (1 : Nat) : Vector Nat 3).inner.length = 3 ∧
    (from_elem 3 (1 : Nat) : Vector Nat 3).len = 3 ∧
    (from_elem 3 (1 : Nat) : Vector Nat 3).index 2 (by decide) = some 1 :=
  C4_from_elem_correct 3 1 2 (by decide)

/-- C5: construction from a runtime sequence always succeeds (the
constructor is total) with the sequence stored unchanged, and the
reported `len()` is `runtime_value(L)`; so whenever the sequence's size
differs from `runtime_value(L)` the reported length silently disagrees
with the actual backing-store size, with no error raised. -/
theorem C5_from_vec_unchecked {T : Type} (L : Nat) (s : List T)
    (hne : s.length ≠ L) :
    (Vector.fromVec L s : Vector T L).inner = s ∧
    (Vector.fromVec L s : Vector T L).len = L ∧
    (Vector.fromVec L s : Vector T L).len
      ≠ (Vector.fromVec L s : Vector T L).inner.length :=
  ⟨rfl, rfl, fun hc => hne hc.symm⟩

/-- C5 witness: a size-1 sequence under declared length 3. -/
theorem C5_witness :
    (Vector.fromVec 3 [1] : Vector Nat 3).inner = [1] ∧
    (Vector.fromVec 3 [1] : Vector Nat 3).len = 3 ∧
    (Vector.fromVec 3 [1] : Vector Nat 3).len
      ≠ (Vector.fromVec 3 [1] : Vector Nat 3).inner.length :=
  C5_from_vec_unchecked 3 [1] (by decide)

/-- C6: `len()` returns `runtime_value(L)` computed from the type
parameter alone, never touching the backing store, so any two containers
with the same length type report the same length regardless of their
stored contents. -/
theorem C6_len_from_type_only {T : Type} (L : Nat) (v w : Vector T L) :
    v.len = L ∧ v.len = w.len :=
  ⟨rfl, rfl⟩

/-- C7 (counterexample): the claim fails as stated. On the container
built from a size-2 vec at declared length 3, writing through the
mutable indexing operation with token 2 (compile-time proof `2 < 3`)
panics (modelled as `none`), so reading back the written value 99 never
occurs. -/
theorem C7_counterexample :
    ¬ ∃ w : Vector Nat 3,
      (Vector.fromVec 3 [5, 6] : Vector Nat 3).writeIndexMut 2
          (by decide) 99 = some w ∧
        w.index 2 (by decide) = some 99 := by
  rintro ⟨w, hw, -⟩
  simp [Vector.writeIndexMut, Vector.fromVec] at hw

/-- C7 (amended): on every container satisfying the size invariant
`inner.length = runtime_value(L)`, writing `x` through the mutable
indexing operation with token `I` (compile-time proof `I < L`) succeeds,
and reading back through the immutable indexing operation with the same
token returns `x`. -/
theorem C7_write_read_amended {T : Type} {L : Nat} (v : Vector T L)
    (hinv : v.inner.length = L) (I : Nat) (h : isLess I L = true)
    (x : T) :
    ∃ w, v.writeIndexMut I h x = some w ∧ w.index I h = some x := by
  have hIL : I < L := of_decide_eq_true h
  have hlen : I < v.inner.length := by rw [hinv]; exact hIL
  refine ⟨{ inner := v.inner.set I x }, ?_, ?_⟩
  · simp [Vector.writeIndexMut, hlen]
  · simpa [Vector.index] using List.getElem?_set_eq_of_lt x hlen

/-- C7 witness: write 9 at token 1 of an invariant-satisfying length-2
container, read it back. -/
theorem C7_witness :
    ∃ w, (Vector.fromVec 2 [1, 2] : Vector Nat 2).writeIndexMut 1
        (by decide) 9 = some w ∧ w.index 1 (by decide) = some 9 :=
  C7_write_read_amended (Vector.fromVec 2 [1, 2]) (by decide) 1
    (by decide) 9

/-- C8: for every index token `I` with `I >= L`, the compile-time
constraint `isLess I L = true` demanded by both the immutable and the
mutable indexing impls is unsatisfiable, so no well-typed indexing call
exists: statically out-of-bounds access has no runtime code path. -/
theorem C8_oob_constraint_unsatisfiable (I L : Nat) (hge : L ≤ I) :
    ¬ (isLess I L = true) :=
  fun hc => absurd (of_decide_eq_true hc) (Nat.not_lt.mpr hge)

/-- C8 witness at token 3 against length 3. -/
theorem C8_witness : ¬ (isLess 3 3 = true) :=
  C8_oob_constraint_unsatisfiable 3 3 (Nat.le_refl 3)

/-- C9: the method-form constructor `Vector::from_elem` delegates to the
free function `from_elem::<L, T>`, so the two produce equal containers
with identical backing stores. -/
theorem C9_from_elem_method_eq_free {T : Type} (L : Nat) (e : T) :
    (Vector.from_elem L e : Vector T L) = vector.from_elem L e ∧
    (Vector.from_elem L e : Vector T L).inner
      = (vector.from_elem L e : Vector T L).inner :=
  ⟨rfl, rfl⟩

/-- C10 (counterexample): the claim fails as stated. On the container
built from a size-1 vec at declared length 2, writing through the
mutable indexing operation with token 1 (compile-time proof `1 < 2`)
panics (modelled as `none`): no post-state exists at all, let alone one
differing from the old container only at position 1. -/
theorem C10_counterexample :
    ¬ ∃ w : Vector Nat 2,
      (Vector.fromVec 2 [7] : Vector Nat 2).writeIndexMut 1
          (by decide) 8 = some w ∧
        w.len = (Vector.fromVec 2 [7] : Vector Nat 2).len ∧
        w.inner.length
          = (Vector.fromVec 2 [7] : Vector Nat 2).inner.length := by
  rintro ⟨w, hw, -⟩
  simp [Vector.writeIndexMut, Vector.fromVec] at hw

/-- C10 (amended): on every container satisfying the size invariant
`inner.length = runtime_value(L)`, writing `x` through the mutable
indexing operation with token `I` (compile-time proof `I < L`) succeeds
and changes only position `I`: position `I` now holds `x`, while the
reported `len()`, the backing-store size, and the element at every other
position `J` are unchanged. -/
theorem C10_frame_amended {T : Type} {L : Nat} (v : Vector T L)
    (hinv : v.inner.length = L) (I : Nat) (h : isLess I L = true)
    (x : T) (J : Nat) (hJ : I ≠ J) :
    ∃ w, v.writeIndexMut I h x = some w ∧
      (w.inner)[I]? = some x ∧
      w.len = v.len ∧
      w.inner.length = v.inner.length ∧
      (w.inner)[J]? = (v.inner)[J]? := by
  have hIL : I < L := of_decide_eq_true h
  have hlen : I < v.inner.length := by rw [hinv]; exact hIL
  refine ⟨{ inner := v.inner.set I x }, ?_, ?_, rfl, ?_, ?_⟩
  · simp [Vector.writeIndexMut, hlen]
  · exact List.getElem?_set_eq_of_lt x hlen
  · simp
  · exact List.getElem?_set_ne hJ

/-- C10 witness: write 9 at token 0 of an invariant-satisfying length-3
container and observe position 2 untouched. -/
theorem C10_witness :
    ∃ w, (Vector.fromVec 3 [1, 2, 3] : Vector Nat 3).writeIndexMut 0
        (by decide) 9 = some w ∧
      (w.inner)[0]? = some 9 ∧
      w.len = (Vector.fromVec 3 [1, 2, 3] : Vector Nat 3).len ∧
      w.inner.length
        = (Vector.fromVec 3 [1, 2, 3] : Vector Nat 3).inner.length ∧
      (w.inner)[2]? = ((Vector.fromVec 3 [1, 2, 3] : Vector Nat 3).inner)[2]? :=
  C10_frame_amended (Vector.fromVec 3 [1, 2, 3]) (by decide) 0
    (by decide) 9 2 (by decide)

end vector
